import Mathlib

/-!
Shallow embedding of the signing orchestration core of `dkg-substrate`
(`dkg-gadget/src/signing_manager/work_manager.rs` and
`dkg-gadget/src/signing_manager/mod.rs`), together with theorems that settle
the specification's claims about it.

Modelling conventions:
* `[u8; 32]` task hashes / fingerprints are modelled as `Nat` (only equality
  of fingerprints matters to the code).
* Byte strings (`Vec<u8>`) are modelled as `List Nat`.
* `HashMap`/`HashSet` are modelled by association lists / lists; the active
  set's `HashSet<Job>` keys jobs solely by `task_hash` (the source defines
  `PartialEq`/`Hash` for `Job` by `task_hash` only), which `activeInsert` /
  `activeContains` reproduce.
* External collaborators (the handle's `start`, `is_done`,
  `signing_has_stalled`, the block-window predicate
  `associated_block_id_acceptable`, the keccak hash, the deterministic
  sampler `select_random_set`, the chain client and the protocol factory)
  live outside the two embedded source files; they are passed in as explicit
  data / function parameters, so every theorem quantifies over their
  behaviour.
* A Rust `expect`/panic is modelled as the `.error` branch of an `Except`
  whose message is the source's panic message.
-/

set_option linter.unusedVariables false

namespace DkgGadget

/-- Outcome of the external calls made through a job's
`AsyncProtocolRemote` handle, plus the fields of the handle the two embedded
files read (`session_id`, `ssid`, `associated_block_id`).  `start_ok` is the
outcome of `handle.start()`; `signing_has_stalled` is queried by `poll` with
the current block number; `is_done` is the value `poll` observes. -/
structure Handle where
  session_id : Nat
  ssid : Nat
  associated_block_id : Nat
  start_ok : Bool
  signing_has_stalled : Nat → Bool
  is_done : Bool

/-- `Job` from `work_manager.rs`: identity is `task_hash` alone (the source's
`PartialEq`/`Hash`/`Borrow<[u8;32]>` all project onto it).  The driver future
and logger carry no scheduling-relevant state and are omitted. -/
structure Job where
  task_hash : Nat
  handle : Handle

/-- The payload of a DKG network message.  Modelled from the spec: the
payload type itself lives outside `src/`; per the spec a payload either
carries an unsigned-proposal fingerprint (signing-stage messages) or lacks
one. -/
inductive DKGPayload where
  | signing (unsigned_proposal_hash : Nat) (data : Nat)
  | keygen (data : Nat)
  deriving DecidableEq

/-- The fields of `SignedDKGMessage` that the two embedded files read
(`msg.msg.session_id`, `msg.msg.payload`, `msg.msg.ssid`,
`msg.msg.associated_block_id`). -/
structure SignedDKGMsg where
  session_id : Nat
  payload : DKGPayload
  ssid : Nat
  associated_block_id : Nat
  deriving DecidableEq

/-- `DKGError` variants produced by the embedded code. -/
inductive DKGErr where
  | GenericError (reason : String)
  | CreateOfflineStage (reason : String)
  deriving DecidableEq

/-- `WorkManagerInner`: `active_tasks : HashSet<Job>` (list, unique
fingerprints maintained by `activeInsert`), `enqueued_tasks : VecDeque<Job>`
(front = head), `enqueued_messages : HashMap<[u8;32], HashMap<u8,
VecDeque<SignedDKGMessage>>>` (association lists).  `spawned` is an effect
log, not a Rust field: it records the `task_hash` of every driver future the
manager hands to `tokio::task::spawn`. -/
structure WMInner where
  active_tasks : List Job
  enqueued_tasks : List Job
  enqueued_messages : List (Nat × List (Nat × List SignedDKGMsg))
  spawned : List Nat

/-- First-occurrence lookup in an association list (`HashMap::get`). -/
def assocLookup {β : Type} : List (Nat × β) → Nat → Option β
  | [], _ => none
  | (k, v) :: rest, key => if k == key then some v else assocLookup rest key

/-- Remove the first entry with the given key (`HashMap::remove`). -/
def assocErase {β : Type} : List (Nat × β) → Nat → List (Nat × β)
  | [], _ => []
  | (k, v) :: rest, key => if k == key then rest else (k, v) :: assocErase rest key

/-- `map.entry(key).or_default()` followed by a modification of the value:
update the first entry with the key in place, or append a fresh one. -/
def assocUpdate {β : Type} : List (Nat × β) → Nat → β → (β → β) → List (Nat × β)
  | [], key, dflt, f => [(key, f dflt)]
  | (k, v) :: rest, key, dflt, f =>
    if k == key then (k, f v) :: rest else (k, v) :: assocUpdate rest key dflt f

/-- `HashSet<Job>::contains` via the job's `Borrow<[u8;32]>`. -/
def activeContains (active : List Job) (hash : Nat) : Bool :=
  active.any fun j => j.task_hash == hash

/-- `HashSet<Job>::insert`: a no-op when a job with the same fingerprint is
already present (Rust keeps the existing element), an append otherwise. -/
def activeInsert (active : List Job) (job : Job) : List Job :=
  if activeContains active job.task_hash then active else active ++ [job]

/-- `should_deliver` (work_manager.rs:421-433): conjunction of session id,
fingerprint, ssid and block-window acceptability.  `acceptable` is the
external `associated_block_id_acceptable`. -/
def should_deliver (acceptable : Nat → Nat → Bool) (task : Job) (msg : SignedDKGMsg)
    (message_task_hash : Nat) : Bool :=
  task.handle.session_id == msg.session_id &&
    task.task_hash == message_task_hash &&
    task.handle.ssid == msg.ssid &&
    acceptable task.handle.associated_block_id msg.associated_block_id

/-- `WorkManager::start_job_unconditional` (work_manager.rs:259-308).  When
`handle.start()` fails the error is only logged; the buffered-message drain
is skipped but the job is still inserted into `active_tasks` and its driver
future is still spawned (the insert and `tokio::task::spawn` sit after the
`if let Err`/`else` block).  On success the buffer map for the job's
fingerprint is removed, its queue for the job's ssid is drained (each message
is delivered or dropped — either way it leaves the buffer), and the map is
put back iff queues for other ssids remain. -/
def start_job_unconditional (acceptable : Nat → Nat → Bool) (job : Job)
    (lock : WMInner) : WMInner :=
  let lock :=
    if job.handle.start_ok then
      match assocLookup lock.enqueued_messages job.task_hash with
      | none => lock
      | some enqueued_messages_map =>
        let buf := assocErase lock.enqueued_messages job.task_hash
        let remaining := assocErase enqueued_messages_map job.handle.ssid
        if remaining.isEmpty then { lock with enqueued_messages := buf }
        else { lock with enqueued_messages := buf ++ [(job.task_hash, remaining)] }
    else lock
  { lock with
    active_tasks := activeInsert lock.active_tasks job
    spawned := lock.spawned ++ [job.task_hash] }

/-- `WorkManager::push_task` (work_manager.rs:122-156).  `poll_manual` is
whether `poll_method == Manual`; `send_ok` is the outcome of the wakeup
channel send (`to_handler.send`).  Note there is no capacity check: a
non-forced push always appends to `enqueued_tasks`. -/
def push_task (wm : WMInner) (task_hash : Nat) (force_start : Bool) (handle : Handle)
    (acceptable : Nat → Nat → Bool) (poll_manual : Bool) (send_ok : Bool) :
    Except DKGErr Unit × WMInner :=
  let job : Job := { task_hash := task_hash, handle := handle }
  if force_start then
    (.ok (), start_job_unconditional acceptable job wm)
  else
    let wm := { wm with enqueued_tasks := wm.enqueued_tasks ++ [job] }
    if poll_manual then (.ok (), wm)
    else if send_ok then (.ok (), wm)
    else (.error (.GenericError "Failed to send job to worker"), wm)

/-- `WorkManager::can_submit_more_tasks` (work_manager.rs:158-161). -/
def can_submit_more_tasks (wm : WMInner) (max_enqueued_tasks : Nat) : Bool :=
  decide (wm.enqueued_tasks.length < max_enqueued_tasks)

/-- `WorkManager::job_exists` (work_manager.rs:310-313). -/
def job_exists (wm : WMInner) (job : Nat) : Bool :=
  activeContains wm.active_tasks job ||
    wm.enqueued_tasks.any fun j => j.task_hash == job

/-- The admission loop of `poll` (work_manager.rs:210-217): up to
`tasks_to_start` times, pop the front of `enqueued_tasks` and start it. -/
def startLoop (acceptable : Nat → Nat → Bool) : Nat → WMInner → WMInner
  | 0, wm => wm
  | Nat.succ n, wm =>
    match wm.enqueued_tasks with
    | [] => wm
    | job :: rest =>
      startLoop acceptable n
        (start_job_unconditional acceptable job { wm with enqueued_tasks := rest })

/-- The buffer garbage collection of `poll` (work_manager.rs:219-256): per
`(fingerprint, ssid)` queue retain only messages acceptable at `now`, then
remove empty inner queues and empty outer maps.  (The source collects the
empty `(hash, ssid)` pairs in `to_remove` and erases them afterwards; on the
association-list model that equals filtering each map in place.) -/
def gcBuffer (acceptable : Nat → Nat → Bool) (now : Nat) (wm : WMInner) : WMInner :=
  { wm with
    enqueued_messages :=
      (wm.enqueued_messages.map fun hm =>
          (hm.1,
            (hm.2.map fun sq =>
                (sq.1, sq.2.filter fun msg => acceptable now msg.associated_block_id)).filter
              fun sq => !sq.2.isEmpty)).filter
        fun hm => !hm.2.isEmpty }

/-- `WorkManager::poll` (work_manager.rs:176-257): reap stalled and done
active jobs, admit from the queue while room remains (the count
`tasks_to_start = max_tasks - |active|` is computed once, after reaping),
then garbage-collect the message buffer. -/
def poll (acceptable : Nat → Nat → Bool) (now : Nat) (max_tasks : Nat)
    (wm : WMInner) : WMInner :=
  let active := wm.active_tasks.filter fun job =>
    if job.handle.signing_has_stalled now then false else !job.handle.is_done
  let wm := { wm with active_tasks := active }
  let tasks_to_start := max_tasks - active.length
  let wm := startLoop acceptable tasks_to_start wm
  gcBuffer acceptable now wm

/-- Who a delivered message was handed to. -/
inductive DeliverOutcome where
  | toEnqueued (job : Job)
  | toActive (job : Job)
  | buffered

/-- The source's `for task in ... { if should_deliver { deliver; return } }`
scan: the first job satisfying `should_deliver`, if any. -/
def findTarget (acceptable : Nat → Nat → Bool) (msg : SignedDKGMsg)
    (message_task_hash : Nat) : List Job → Option Job
  | [] => none
  | task :: rest =>
    if should_deliver acceptable task msg message_task_hash then some task
    else findTarget acceptable msg message_task_hash rest

/-- `enqueued_messages.entry(hash).or_default().entry(msg.ssid).or_default().push_back(msg)`. -/
def bufferPush (buf : List (Nat × List (Nat × List SignedDKGMsg))) (hash : Nat)
    (msg : SignedDKGMsg) : List (Nat × List (Nat × List SignedDKGMsg)) :=
  assocUpdate buf hash [] fun m => assocUpdate m msg.ssid [] fun q => q ++ [msg]

/-- `WorkManager::deliver_message` (work_manager.rs:315-366): try the
enqueued queue first, then the active set, and only if neither holds a
matching job park the message in the buffer. -/
def wm_deliver_message (acceptable : Nat → Nat → Bool) (wm : WMInner)
    (msg : SignedDKGMsg) (message_task_hash : Nat) : DeliverOutcome × WMInner :=
  match findTarget acceptable msg message_task_hash wm.enqueued_tasks with
  | some task => (.toEnqueued task, wm)
  | none =>
    match findTarget acceptable msg message_task_hash wm.active_tasks with
    | some task => (.toActive task, wm)
    | none =>
      (.buffered,
        { wm with
          enqueued_messages := bufferPush wm.enqueued_messages message_task_hash msg })

/-- SCALE encoding of a `u8` value: the single byte itself
(`ssid.encode()` in mod.rs:204). -/
def scaleEncodeU8 (ssid : Nat) : List Nat :=
  [ssid % 256]

/-- The committee-election seed of `on_block_finalized` (mod.rs:199-206):
`dkg_pub_key.clone().into_iter().chain(unsigned_proposal_bytes.clone())
.chain(ssid.encode()).collect()` fed to `keccak_256`.  `keccak` is the
external `sp_core::keccak_256`. -/
def committee_seed (keccak : List Nat → List Nat) (dkg_pub_key : List Nat)
    (unsigned_proposal_bytes : List Nat) (ssid : Nat) : List Nat :=
  keccak (List.append (List.append dkg_pub_key unsigned_proposal_bytes)
    (scaleEncodeU8 ssid))

/-- Modelled from the spec: `KeygenPartyId::try_from` (outside `src/`)
carries a validity invariant — a party id converts iff it is non-zero. -/
def keygenPartyIdTryFrom (i : Nat) : Option Nat :=
  if i = 0 then none else some i

/-- The type of the external deterministic sampler `select_random_set`
(outside `src/`); per the spec it is a pure function of
`(seed, set, count)`. -/
abbrev Sampler := List Nat → List Nat → Nat → Except String (List Nat)

/-- `SigningManager::generate_signers` (mod.rs:272-297): start from the
unjailed signers, top up from the jailed signers in list order when
`|unjailed| ≤ t`, hand the pool to the sampler asking for `t+1` entries, and
map the selection through `KeygenPartyId::try_from` with `flat_map`
(conversion failures are silently dropped).  A sampler error is wrapped in
`DKGError::CreateOfflineStage`. -/
def generate_signers (sampler : Sampler) (seed : List Nat) (t : Nat)
    (unjailed jailed : List Nat) : Except DKGErr (List Nat) :=
  let final_set := unjailed
  let final_set :=
    if final_set.length ≤ t then
      final_set ++ jailed.take (t + 1 - final_set.length)
    else final_set
  match sampler seed final_set (t + 1) with
  | .ok set => .ok (set.filterMap keygenPartyIdTryFrom)
  | .error err =>
    .error (.CreateOfflineStage ("generate_signers failed, reason: " ++ err))

/-- Modelled from the spec: the pool handed to the deterministic sampler
("if `|unjailed| ≤ t`, top up from the jailed set by taking the first
`t + 1 − |unjailed|` entries in list order and concatenating"); stated from
the spec's words for comparison with `generate_signers`. -/
def specSigningPool (t : Nat) (unjailed jailed : List Nat) : List Nat :=
  if unjailed.length ≤ t then unjailed ++ jailed.take (t + 1 - unjailed.length)
  else unjailed

/-- `payload.unsigned_proposal_hash()`: `some` exactly for payloads carrying
an unsigned-proposal fingerprint. -/
def unsigned_proposal_hash : DKGPayload → Option Nat
  | .signing h _ => some h
  | .keygen _ => none

/-- `SigningManager::deliver_message` (mod.rs:76-80): the unsigned-proposal
hash of the payload is taken with `.expect("Bad message type")` — a message
whose payload lacks a fingerprint makes the call panic (modelled as the
`.error` branch); otherwise the message is forwarded to
`WorkManager::deliver_message` with that hash as the fingerprint. -/
def sm_deliver_message (acceptable : Nat → Nat → Bool) (wm : WMInner)
    (message : SignedDKGMsg) : Except String (DeliverOutcome × WMInner) :=
  match unsigned_proposal_hash message.payload with
  | some message_task_hash =>
    .ok (wm_deliver_message acceptable wm message message_task_hash)
  | none => .error "Bad message type"

/-- One unsigned proposal inside a batch: the embedded code reads only its
`typed_chain_id` (`TypedChainId::None` marks a rotation-priority batch). -/
inductive TypedChainId where
  | none
  | other (id : Nat)
  deriving DecidableEq

structure Proposal where
  typed_chain_id : TypedChainId
  deriving DecidableEq

/-- An unsigned proposal batch as the embedded code observes it:
its proposals, its timestamp (used only for sorting), its SCALE encoding
`batch.encode()` and its hash `batch.hash()` (an `Option`, external). -/
structure Batch where
  proposals : List Proposal
  timestamp : Nat
  encoding : List Nat
  hashVal : Option Nat
  deriving DecidableEq

/-- Stable ascending insertion by timestamp, modelling the stable
`res.sort_by(|a, b| a.timestamp.cmp(&b.timestamp))` (mod.rs:139). -/
def insertByTimestamp (b : Batch) : List Batch → List Batch
  | [] => [b]
  | c :: rest =>
    if b.timestamp < c.timestamp then b :: c :: rest
    else c :: insertByTimestamp b rest

def sortByTimestamp (l : List Batch) : List Batch :=
  l.foldr insertByTimestamp []

/-- The fetch-stage filtering of `on_block_finalized` (mod.rs:137-151): sort
by timestamp, keep a batch iff `batch.hash()` is `Some` and the hash is not
already known to the work manager (`job_exists`). -/
def filterUnsignedProposals (wm : WMInner) (res : List Batch) : List Batch :=
  (sortByTimestamp res).filter fun b =>
    match b.hashVal with
    | some h => !(job_exists wm h)
    | none => false

/-- The external collaborators `on_block_finalized` consults, gathered in one
record: keccak, the sampler, the jail partition of the best authorities, the
local party index, the signature threshold, the DKG public key, whether
`dkg_modules.get_signing_protocol` finds a protocol, the protocol factory's
outcome per `(hash, ssid)`, the work manager's wiring (`poll_manual`,
`send_ok`, `acceptable`) and the constants
`MAX_POTENTIAL_SIGNING_SETS_PER_PROPOSAL` / `MAX_ENQUEUED_TASKS`. -/
structure SigningCtx where
  keccak : List Nat → List Nat
  sampler : Sampler
  unjailed : List Nat
  jailed : List Nat
  party_i : Nat
  threshold : Nat
  dkg_pub_key : List Nat
  protocol_exists : Bool
  factory : Nat → Nat → Except DKGErr Handle
  poll_manual : Bool
  send_ok : Bool
  acceptable : Nat → Nat → Bool
  max_ssids : Nat
  max_enqueued : Nat

/-- How a run of the `on_block_finalized` proposal loop ends abnormally:
a panic (Rust `expect`) or a returned `DKGError`. -/
inductive RunError where
  | panic (msg : String)
  | dkgError (e : DKGErr)

/-- The ssid loop of `on_block_finalized` (mod.rs:199-263): for each ssid
compute the seed, run `generate_signers` (`.ok()` — errors skip the ssid),
and when the local party is elected fetch the signing protocol
(`.expect("Standard signing protocol should exist")`), initialize it
(factory errors are returned) and push the task; a `push_task` error
propagates through `?`. -/
def processSsids (ctx : SigningCtx) (unsigned_proposal_hash : Nat)
    (unsigned_proposal_bytes : List Nat) (force_start : Bool) :
    List Nat → WMInner → Except RunError WMInner
  | [], wm => .ok wm
  | ssid :: rest, wm =>
    let seed :=
      committee_seed ctx.keccak ctx.dkg_pub_key unsigned_proposal_bytes ssid
    match (generate_signers ctx.sampler seed ctx.threshold ctx.unjailed
        ctx.jailed).toOption with
    | none => processSsids ctx unsigned_proposal_hash unsigned_proposal_bytes
        force_start rest wm
    | some signing_set =>
      if ctx.party_i ∈ signing_set then
        if ctx.protocol_exists then
          match ctx.factory unsigned_proposal_hash ssid with
          | .error err => .error (.dkgError err)
          | .ok handle =>
            match push_task wm unsigned_proposal_hash force_start handle
                ctx.acceptable ctx.poll_manual ctx.send_ok with
            | (.error e, _) => .error (.dkgError e)
            | (.ok _, wm) =>
              processSsids ctx unsigned_proposal_hash unsigned_proposal_bytes
                force_start rest wm
        else .error (.panic "Standard signing protocol should exist")
      else processSsids ctx unsigned_proposal_hash unsigned_proposal_bytes
        force_start rest wm

/-- The proposal-batch loop of `on_block_finalized` (mod.rs:180-264).  Per
batch: `batch.proposals.first().expect("Empty batch!")` (panic on an empty
batch), break out of the loop when `can_submit_more_tasks` is false,
`batch.hash().expect("unable to hash proposal")` (panic when the hash is
unavailable), then the ssid loop; `force_start` iff the first proposal's
typed chain id is `None`. -/
def processBatches (ctx : SigningCtx) : List Batch → WMInner → Except RunError WMInner
  | [], wm => .ok wm
  | batch :: rest, wm =>
    match batch.proposals.head? with
    | none => .error (.panic "Empty batch!")
    | some p =>
      if can_submit_more_tasks wm ctx.max_enqueued then
        match batch.hashVal with
        | none => .error (.panic "unable to hash proposal")
        | some unsigned_proposal_hash =>
          match processSsids ctx unsigned_proposal_hash batch.encoding
              (p.typed_chain_id == TypedChainId.none)
              (List.range ctx.max_ssids) wm with
          | .error e => .error e
          | .ok wm => processBatches ctx rest wm
      else .ok wm

/-- The part of `on_block_finalized` that consumes the fetched batches
(mod.rs:131-264): filter/sort them, then run the proposal loop. -/
def on_block_finalized_core (ctx : SigningCtx) (res : List Batch)
    (wm : WMInner) : Except RunError WMInner :=
  processBatches ctx (filterUnsignedProposals wm res) wm

/-! ### Concrete instances used by witnesses and counterexamples -/

/-- A block-window predicate that accepts everything. -/
def accAll : Nat → Nat → Bool := fun _ _ => true

/-- A handle whose external calls all succeed and that never stalls. -/
def okHandle : Handle :=
  { session_id := 1, ssid := 0, associated_block_id := 0, start_ok := true,
    signing_has_stalled := fun _ => false, is_done := false }

/-- A handle whose `start()` call fails. -/
def badStartHandle : Handle :=
  { okHandle with start_ok := false }

/-- The state a fresh `WorkManager::new` starts from. -/
def wm0 : WMInner :=
  { active_tasks := [], enqueued_tasks := [], enqueued_messages := [], spawned := [] }

/-- A deterministic sampler returning the first `n` entries of the pool. -/
def takeSampler : Sampler := fun _ pool n => .ok (pool.take n)

/-- A state whose queue already holds one job, with fingerprint 1. -/
def wmFull1 : WMInner :=
  { wm0 with enqueued_tasks := [{ task_hash := 1, handle := okHandle }] }

/-- The state after force-pushing fingerprint 7 and then pushing fingerprint
7 again non-forced, starting from the empty manager: both pushes report
success. -/
def dupState : WMInner :=
  (push_task (push_task wm0 7 true okHandle accAll true true).2
    7 false okHandle accAll true true).2

/-- A non-empty, hashable rotation-irrelevant batch. -/
def goodBatch : Batch :=
  { proposals := [{ typed_chain_id := TypedChainId.other 1 }], timestamp := 0,
    encoding := [1], hashVal := some 11 }

/-- A hashable batch whose proposals list is empty. -/
def emptyBatch : Batch :=
  { proposals := [], timestamp := 1, encoding := [2], hashVal := some 12 }

/-- A concrete collaborator record for `on_block_finalized`, with
`MAX_ENQUEUED_TASKS = 0` so that the work manager is already full. -/
def ctx0 : SigningCtx :=
  { keccak := fun l => l, sampler := takeSampler, unjailed := [1, 2], jailed := [],
    party_i := 1, threshold := 0, dkg_pub_key := [0], protocol_exists := true,
    factory := fun _ _ => .ok okHandle, poll_manual := true, send_ok := true,
    acceptable := accAll, max_ssids := 1, max_enqueued := 0 }

/-! ### Helper lemmas -/

/-- The active set holds at most one job per fingerprint. -/
def activeUnique (l : List Job) : Prop :=
  l.Pairwise fun a b => a.task_hash ≠ b.task_hash

theorem activeUnique_activeInsert (l : List Job) (j : Job)
    (h : activeUnique l) : activeUnique (activeInsert l j) := by
  unfold activeUnique at h ⊢
  unfold activeInsert
  by_cases hc : activeContains l j.task_hash = true
  · rw [if_pos hc]; exact h
  · rw [if_neg hc, List.pairwise_append]
    refine ⟨h, List.pairwise_singleton _ _, ?_⟩
    intro a ha b hb
    simp only [List.mem_singleton] at hb
    subst hb
    simp only [activeContains, List.any_eq_true, beq_iff_eq, not_exists] at hc
    push_neg at hc
    exact hc a ha

/-- `start_job_unconditional` changes `active_tasks` exactly by
`activeInsert`, in both the start-success and the start-failure branch. -/
theorem start_job_unconditional_active_tasks (acceptable : Nat → Nat → Bool)
    (job : Job) (lock : WMInner) :
    (start_job_unconditional acceptable job lock).active_tasks
      = activeInsert lock.active_tasks job := by
  unfold start_job_unconditional
  cases hok : job.handle.start_ok
  · rfl
  · cases hl : assocLookup lock.enqueued_messages job.task_hash with
    | none => simp [hl]
    | some m =>
      cases hr : (assocErase m job.handle.ssid).isEmpty <;> simp [hl, hr]

theorem activeUnique_startLoop (acceptable : Nat → Nat → Bool) (n : Nat)
    (wm : WMInner) (h : activeUnique wm.active_tasks) :
    activeUnique (startLoop acceptable n wm).active_tasks := by
  induction n generalizing wm with
  | zero => exact h
  | succ n ih =>
    unfold startLoop
    cases hq : wm.enqueued_tasks with
    | nil => exact h
    | cons job rest =>
      apply ih
      rw [start_job_unconditional_active_tasks]
      exact activeUnique_activeInsert _ _ h

theorem activeUnique_poll (acceptable : Nat → Nat → Bool) (now maxT : Nat)
    (wm : WMInner) (h : activeUnique wm.active_tasks) :
    activeUnique (poll acceptable now maxT wm).active_tasks := by
  unfold poll
  apply activeUnique_startLoop
  exact h.sublist (List.filter_sublist _)

theorem assocLookup_assocUpdate_same {β : Type} (l : List (Nat × β)) (k : Nat)
    (d : β) (f : β → β) :
    assocLookup (assocUpdate l k d f) k = some (f ((assocLookup l k).getD d)) := by
  induction l with
  | nil => simp [assocUpdate, assocLookup]
  | cons kv rest ih =>
    obtain ⟨k', v⟩ := kv
    by_cases h : k' = k
    · subst h
      simp [assocUpdate, assocLookup]
    · simp [assocUpdate, assocLookup, h, ih]

theorem assocLookup_assocUpdate_ne {β : Type} (l : List (Nat × β)) (k k' : Nat)
    (d : β) (f : β → β) (hne : k' ≠ k) :
    assocLookup (assocUpdate l k d f) k' = assocLookup l k' := by
  induction l with
  | nil => simp [assocUpdate, assocLookup, Ne.symm hne]
  | cons kv rest ih =>
    obtain ⟨k₀, v⟩ := kv
    by_cases h : k₀ = k
    · subst h
      simp [assocUpdate, assocLookup, Ne.symm hne]
    · simp only [assocUpdate, beq_iff_eq, h, if_false]
      by_cases h' : k₀ = k'
      · simp [assocLookup, h']
      · simp [assocLookup, h', ih]

/-- The message queue the buffer holds for a `(fingerprint, ssid)` pair
(empty when absent). -/
def bufLookup (buf : List (Nat × List (Nat × List SignedDKGMsg)))
    (hash ssid : Nat) : List SignedDKGMsg :=
  (assocLookup ((assocLookup buf hash).getD []) ssid).getD []

theorem bufLookup_bufferPush (buf : List (Nat × List (Nat × List SignedDKGMsg)))
    (hash : Nat) (msg : SignedDKGMsg) (h' s' : Nat) :
    bufLookup (bufferPush buf hash msg) h' s'
      = if h' = hash ∧ s' = msg.ssid
        then bufLookup buf hash msg.ssid ++ [msg]
        else bufLookup buf h' s' := by
  unfold bufLookup bufferPush
  by_cases hh : h' = hash
  · subst hh
    rw [assocLookup_assocUpdate_same]
    by_cases hs : s' = msg.ssid
    · subst hs
      simp [assocLookup_assocUpdate_same]
    · simp only [Option.getD_some]
      rw [assocLookup_assocUpdate_ne _ _ _ _ _ hs]
      simp [hs]
  · rw [assocLookup_assocUpdate_ne _ _ _ _ _ hh]
    simp [hh]

theorem findTarget_eq_find (acceptable : Nat → Nat → Bool) (msg : SignedDKGMsg)
    (hash : Nat) (l : List Job) :
    findTarget acceptable msg hash l
      = l.find? fun t => should_deliver acceptable t msg hash := by
  induction l with
  | nil => rfl
  | cons t rest ih =>
    cases h : should_deliver acceptable t msg hash <;>
      simp [findTarget, List.find?_cons, h, ih]

/-- The buffer-hygiene predicate of the spec, as a boolean checker: every
outer map is non-empty, every inner queue is non-empty, and every buffered
message is still acceptable at block `now`. -/
def bufferHygienic (acceptable : Nat → Nat → Bool) (now : Nat)
    (buf : List (Nat × List (Nat × List SignedDKGMsg))) : Bool :=
  buf.all fun hm =>
    !hm.2.isEmpty &&
      hm.2.all fun sq =>
        !sq.2.isEmpty && sq.2.all fun m => acceptable now m.associated_block_id

theorem gcBuffer_hygienic (acceptable : Nat → Nat → Bool) (now : Nat)
    (wm : WMInner) :
    bufferHygienic acceptable now (gcBuffer acceptable now wm).enqueued_messages
      = true := by
  simp only [gcBuffer, bufferHygienic, List.all_eq_true]
  intro hm hmem
  rw [List.mem_filter] at hmem
  obtain ⟨hmem, hne⟩ := hmem
  rw [List.mem_map] at hmem
  obtain ⟨hm0, _, rfl⟩ := hmem
  simp only [Bool.and_eq_true]
  refine ⟨by simpa using hne, ?_⟩
  rw [List.all_eq_true]
  intro sq hsq
  rw [List.mem_filter] at hsq
  obtain ⟨hsq, hne2⟩ := hsq
  rw [List.mem_map] at hsq
  obtain ⟨sq0, _, rfl⟩ := hsq
  rw [Bool.and_eq_true]
  refine ⟨by simpa using hne2, ?_⟩
  rw [List.all_eq_true]
  intro m hm2
  rw [List.mem_filter] at hm2
  exact hm2.2

/-! ### Claims -/

/-- C1, counterexample: with `max_enqueued_tasks = 1` and the queue already
holding one job, a non-forced `push_task` still returns `Ok` and appends the
job, so the queue exceeds the bound — `push_task` surfaces no overflow
error. -/
theorem push_task_overflow_cex :
    can_submit_more_tasks wmFull1 1 = false ∧
    (push_task wmFull1 2 false okHandle accAll true true).1 = .ok () ∧
    (push_task wmFull1 2 false okHandle accAll true true).2.enqueued_tasks.length
      = 2 :=
  ⟨rfl, rfl, rfl⟩

/-- C1 (amended): a non-forced `push_task` performs no capacity check — it
always appends the job to `enqueued_tasks` and leaves `active_tasks`
untouched; its only error is the wakeup-channel send failure (Interval
mode).  The bound `|enqueued| ≤ max_enqueued` is left to callers via
`can_submit_more_tasks`, which is `|enqueued| < max_enqueued`. -/
theorem push_task_nonforced_always_appends (wm : WMInner) (task_hash : Nat)
    (handle : Handle) (acceptable : Nat → Nat → Bool)
    (poll_manual send_ok : Bool) (max_enqueued_tasks : Nat) :
    (push_task wm task_hash false handle acceptable poll_manual send_ok).2.enqueued_tasks
      = wm.enqueued_tasks ++ [{ task_hash := task_hash, handle := handle }] ∧
    (push_task wm task_hash false handle acceptable poll_manual send_ok).2.active_tasks
      = wm.active_tasks ∧
    (push_task wm task_hash false handle acceptable poll_manual send_ok).1
      = (if poll_manual || send_ok then .ok ()
         else .error (.GenericError "Failed to send job to worker")) ∧
    can_submit_more_tasks wm max_enqueued_tasks
      = decide (wm.enqueued_tasks.length < max_enqueued_tasks) := by
  refine ⟨?_, ?_, ?_, rfl⟩ <;> cases poll_manual <;> cases send_ok <;> rfl

/-- C2, counterexample: starting from the empty manager, force-push
fingerprint 7 (it becomes active) and then push fingerprint 7 again
non-forced: the fingerprint is now present in both `active_tasks` and
`enqueued_tasks` — not in at most one of them, and the second push was
neither rejected nor a no-op. -/
theorem fingerprint_in_both_collections_cex :
    activeContains dupState.active_tasks 7 = true ∧
    dupState.enqueued_tasks.any (fun j => j.task_hash == 7) = true :=
  ⟨rfl, rfl⟩

/-- C2 (amended): the WorkManager itself enforces no fingerprint
uniqueness across the two collections — a non-forced `push_task`
unconditionally appends to `enqueued_tasks` even when the fingerprint is
already active or enqueued (deduplication is left to callers, who check
`job_exists` before pushing).  Only within `active_tasks` does the
`HashSet` keyed by fingerprint guarantee at most one job per fingerprint:
starting from a duplicate-free active set, `push_task` and `poll` keep it
duplicate-free. -/
theorem push_task_no_duplicate_check (wm : WMInner) (task_hash : Nat)
    (handle : Handle) (acceptable : Nat → Nat → Bool)
    (force_start poll_manual send_ok : Bool) (now max_tasks : Nat)
    (h : activeUnique wm.active_tasks) :
    (push_task wm task_hash false handle acceptable poll_manual send_ok).2.enqueued_tasks
      = wm.enqueued_tasks ++ [{ task_hash := task_hash, handle := handle }] ∧
    activeUnique
      (push_task wm task_hash force_start handle acceptable poll_manual send_ok).2.active_tasks ∧
    activeUnique (poll acceptable now max_tasks wm).active_tasks := by
  refine ⟨?_, ?_, activeUnique_poll acceptable now max_tasks wm h⟩
  · cases poll_manual <;> cases send_ok <;> rfl
  · cases force_start
    · cases poll_manual <;> cases send_ok <;> exact h
    · show activeUnique (start_job_unconditional acceptable _ wm).active_tasks
      rw [start_job_unconditional_active_tasks]
      exact activeUnique_activeInsert _ _ h

theorem push_task_no_duplicate_check_witness :
    (push_task wm0 7 false okHandle accAll true true).2.enqueued_tasks
      = wm0.enqueued_tasks ++ [{ task_hash := 7, handle := okHandle }] ∧
    activeUnique (push_task wm0 7 true okHandle accAll true true).2.active_tasks ∧
    activeUnique (poll accAll 0 2 wm0).active_tasks :=
  push_task_no_duplicate_check wm0 7 okHandle accAll true true true 0 2
    List.Pairwise.nil

/-- C3, counterexample: a job whose `handle.start()` fails is nevertheless
inserted into the active set, and its driver future is nevertheless
spawned. -/
theorem start_error_still_inserts_cex :
    activeContains
      (start_job_unconditional accAll
        { task_hash := 9, handle := badStartHandle } wm0).active_tasks 9 = true ∧
    (start_job_unconditional accAll
      { task_hash := 9, handle := badStartHandle } wm0).spawned = [9] :=
  ⟨rfl, rfl⟩

/-- C3 (amended): when `handle.start()` returns an error,
`start_job_unconditional` only logs it — the start is not aborted: the job
is still inserted into `active_tasks` and its driver future is still
spawned; the only thing skipped is the drain of the job's buffered messages
(the buffer is left untouched). -/
theorem start_error_inserts_and_spawns (acceptable : Nat → Nat → Bool)
    (hash : Nat) (h : Handle) (lock : WMInner) :
    start_job_unconditional acceptable
        { task_hash := hash, handle := { h with start_ok := false } } lock
      = { lock with
          active_tasks :=
            activeInsert lock.active_tasks
              { task_hash := hash, handle := { h with start_ok := false } }
          spawned := lock.spawned ++ [hash] } :=
  rfl

/-- C4, counterexample: with `t = 1` the sampler selects the two-element
pool `[0, 1]`; party id 0 fails validity conversion and is silently
dropped, and `generate_signers` returns `Ok [1]` — a set of size 1 < t+1 =
2 — instead of an error of any kind. -/
theorem generate_signers_small_set_cex :
    generate_signers takeSampler [9] 1 [0, 1] [] = .ok [1] :=
  rfl

/-- C4 (amended): entries of the sampler's selection that fail validity
conversion are dropped silently by `flat_map`; whenever the sampler
succeeds, `generate_signers` returns `Ok` with the possibly-shrunken set
(its size is only bounded above by the selection's size) and signals no
error — the sole error path wraps a sampler failure in
`DKGError::CreateOfflineStage`, and no `CommitteeSelectionFailed` kind
exists. -/
theorem generate_signers_drops_silently (sampler : Sampler) (seed : List Nat)
    (t : Nat) (unjailed jailed selected : List Nat)
    (h : sampler seed (specSigningPool t unjailed jailed) (t + 1) = .ok selected) :
    generate_signers sampler seed t unjailed jailed
      = .ok (selected.filterMap keygenPartyIdTryFrom) ∧
    (selected.filterMap keygenPartyIdTryFrom).length ≤ selected.length := by
  constructor
  · simp only [generate_signers, specSigningPool] at h ⊢
    rw [h]
  · exact List.length_filterMap_le _ _

theorem generate_signers_drops_silently_witness :
    takeSampler [9] (specSigningPool 1 [0, 1] []) (1 + 1) = .ok [0, 1] ∧
    generate_signers takeSampler [9] 1 [0, 1] []
      = .ok ([0, 1].filterMap keygenPartyIdTryFrom) :=
  ⟨rfl, (generate_signers_drops_silently takeSampler [9] 1 [0, 1] [] [0, 1] rfl).1⟩

/-- C5, counterexample: a message whose payload carries no
unsigned-proposal fingerprint makes `SigningManager::deliver_message` panic
(the `.expect("Bad message type")`, modelled as the error branch) — the
message is not failed gracefully. -/
theorem sm_deliver_message_panic_cex :
    sm_deliver_message accAll wm0
      { session_id := 1, payload := .keygen 0, ssid := 0, associated_block_id := 0 }
      = .error "Bad message type" :=
  rfl

/-- C5 (amended): `SigningManager::deliver_message` panics via
`expect("Bad message type")` on every message whose payload lacks an
unsigned-proposal fingerprint; a message whose payload carries fingerprint
`h` is forwarded to `WorkManager::deliver_message` with `h` as the
fingerprint. -/
theorem sm_deliver_message_panics_without_hash (acceptable : Nat → Nat → Bool)
    (wm : WMInner) (sid ssid abid d h : Nat) :
    sm_deliver_message acceptable wm
        { session_id := sid, payload := .keygen d, ssid := ssid,
          associated_block_id := abid }
      = .error "Bad message type" ∧
    sm_deliver_message acceptable wm
        { session_id := sid, payload := .signing h d, ssid := ssid,
          associated_block_id := abid }
      = .ok (wm_deliver_message acceptable wm
          { session_id := sid, payload := .signing h d, ssid := ssid,
            associated_block_id := abid } h) :=
  ⟨rfl, rfl⟩

/-- C6: the committee-election seed of `on_block_finalized` is the external
keccak-256 hash applied to the dkg public key bytes, the SCALE-encoded
batch, and the SCALE-encoded (single-byte) ssid, concatenated in exactly
that order. -/
theorem committee_seed_concat_order (keccak : List Nat → List Nat)
    (dkg_pub_key unsigned_proposal_bytes : List Nat) (ssid : Nat) :
    committee_seed keccak dkg_pub_key unsigned_proposal_bytes ssid
      = keccak (dkg_pub_key ++ (unsigned_proposal_bytes ++ scaleEncodeU8 ssid)) ∧
    scaleEncodeU8 ssid = [ssid % 256] := by
  refine ⟨?_, rfl⟩
  show keccak ((dkg_pub_key ++ unsigned_proposal_bytes) ++ scaleEncodeU8 ssid)
    = keccak (dkg_pub_key ++ (unsigned_proposal_bytes ++ scaleEncodeU8 ssid))
  rw [List.append_assoc]

/-- C7: `generate_signers` factors through the pool the spec describes —
the unjailed set, topped up with the first `t + 1 − |unjailed|` jailed
entries in list order when `|unjailed| ≤ t`, and exactly the unjailed set
otherwise — and the deterministic sampler is invoked once on that pool
asking for a subset of size `t + 1`. -/
theorem generate_signers_pool_spec (sampler : Sampler) (seed : List Nat)
    (t : Nat) (unjailed jailed : List Nat) :
    generate_signers sampler seed t unjailed jailed
      = (match sampler seed (specSigningPool t unjailed jailed) (t + 1) with
         | .ok set => .ok (set.filterMap keygenPartyIdTryFrom)
         | .error err =>
           .error (.CreateOfflineStage ("generate_signers failed, reason: " ++ err))) ∧
    (unjailed.length ≤ t →
      specSigningPool t unjailed jailed
        = unjailed ++ jailed.take (t + 1 - unjailed.length)) ∧
    (t < unjailed.length → specSigningPool t unjailed jailed = unjailed) := by
  refine ⟨rfl, fun h => ?_, fun h => ?_⟩
  · simp [specSigningPool, h]
  · simp [specSigningPool, Nat.not_le.mpr h]

/-- The spec's jailed top-up scenario: authorities `[1]` unjailed, `[2, 3]`
jailed, `t = 1`; the pool handed to the sampler is `[1, 2]`. -/
theorem generate_signers_pool_spec_witness :
    specSigningPool 1 [1] [2, 3] = [1] ++ List.take (1 + 1 - [1].length) [2, 3] ∧
    generate_signers takeSampler [0] 1 [1] [2, 3] = .ok [1, 2] :=
  ⟨(generate_signers_pool_spec takeSampler [0] 1 [1] [2, 3]).2.1 (by decide),
    rfl⟩

/-- C8: `WorkManager::deliver_message` hands the message to the first
enqueued job satisfying `should_deliver`, failing that to the first active
job satisfying it, and only when neither collection matches appends it at
the back of `buffer[fingerprint][msg.ssid]`, preserving every existing
queue; and `should_deliver` is exactly the conjunction of equal session id,
equal fingerprint, equal ssid and block-window acceptability. -/
theorem wm_deliver_message_routing (acceptable : Nat → Nat → Bool)
    (wm : WMInner) (msg : SignedDKGMsg) (hash : Nat) :
    wm_deliver_message acceptable wm msg hash
      = (match wm.enqueued_tasks.find?
            (fun t => should_deliver acceptable t msg hash) with
         | some task => (.toEnqueued task, wm)
         | none =>
           match wm.active_tasks.find?
              (fun t => should_deliver acceptable t msg hash) with
           | some task => (.toActive task, wm)
           | none =>
             (.buffered,
              { wm with
                enqueued_messages := bufferPush wm.enqueued_messages hash msg })) ∧
    (∀ h' s',
      bufLookup (bufferPush wm.enqueued_messages hash msg) h' s'
        = if h' = hash ∧ s' = msg.ssid
          then bufLookup wm.enqueued_messages hash msg.ssid ++ [msg]
          else bufLookup wm.enqueued_messages h' s') ∧
    (∀ task : Job,
      should_deliver acceptable task msg hash = true ↔
        (task.handle.session_id = msg.session_id ∧ task.task_hash = hash ∧
          task.handle.ssid = msg.ssid ∧
          acceptable task.handle.associated_block_id msg.associated_block_id
            = true)) := by
  refine ⟨?_, bufLookup_bufferPush wm.enqueued_messages hash msg, ?_⟩
  · unfold wm_deliver_message
    rw [findTarget_eq_find, findTarget_eq_find]
  · intro task
    simp [should_deliver, and_assoc]

/-- C9: after any `poll` at block `now`, the enqueued-message buffer is
hygienic — it holds no message that is unacceptable at `now`, no empty
per-ssid queue, and no empty per-fingerprint map. -/
theorem poll_buffer_hygiene (acceptable : Nat → Nat → Bool)
    (now max_tasks : Nat) (wm : WMInner) :
    bufferHygienic acceptable now
        (poll acceptable now max_tasks wm).enqueued_messages = true := by
  unfold poll
  exact gcBuffer_hygienic acceptable now _

/-- C10, counterexample: with `MAX_ENQUEUED_TASKS = 0` the capacity check
breaks out of the proposal loop at the first batch, so the fetched batch
`emptyBatch` — which has an empty proposals list and survives the fetch
filter — is never examined and `on_block_finalized` returns `Ok` instead
of panicking. -/
theorem on_block_finalized_no_panic_cex :
    emptyBatch.proposals = [] ∧
    emptyBatch ∈ filterUnsignedProposals wm0 [goodBatch, emptyBatch] ∧
    on_block_finalized_core ctx0 [goodBatch, emptyBatch] wm0 = .ok wm0 :=
  ⟨rfl, by decide, rfl⟩

/-- C10 (amended): the proposal loop of `on_block_finalized` panics via
`expect("Empty batch!")` whenever it reaches a batch whose proposals list
is empty (it neither skips the batch nor returns an error) — but batches
behind a capacity break are never examined, and every batch surviving the
fetch-stage filter has a hash, so the submission-stage
`expect("unable to hash proposal")` cannot fire for fetched batches. -/
theorem reached_empty_batch_panics (ctx : SigningCtx) (wm : WMInner)
    (batch : Batch) (rest res : List Batch)
    (hempty : batch.proposals = []) :
    processBatches ctx (batch :: rest) wm = .error (.panic "Empty batch!") ∧
    (∀ b ∈ filterUnsignedProposals wm res, b.hashVal.isSome = true) := by
  constructor
  · unfold processBatches
    rw [hempty]
    rfl
  · intro b hb
    unfold filterUnsignedProposals at hb
    rw [List.mem_filter] at hb
    obtain ⟨_, hp⟩ := hb
    cases hh : b.hashVal with
    | none => rw [hh] at hp; exact absurd hp (by simp)
    | some h => simp

theorem reached_empty_batch_panics_witness :
    processBatches ctx0 [emptyBatch] wm0 = .error (.panic "Empty batch!") :=
  (reached_empty_batch_panics ctx0 wm0 emptyBatch [] [] rfl).1

end DkgGadget
